import Mathlib

/-
Verification of the Explode-Kittens backend service (main.go).

The program is a set of HTTP handlers over a Redis store.  We embed the
store as three association lists:
  * kv     — the top-level string keyspace (redis GET / SET);
  * users  — the hash at key "users" (HSET / HGET / HGETALL), email → password;
  * scores — the hash at key "scores", email → score.  The code writes a
    Go int (64-bit) with HSET and reads it back with HGet(...).Int(),
    which round-trips, so score values are modelled as integers in the
    two's-complement int64 range, and the addition score += delta wraps
    modulo 2^64 exactly as Go int64 addition does.

A request is either an OPTIONS preflight, a body that fails JSON decoding,
or a decoded User object {email, password, score}.  Since the score field
decodes into a Go int, a JSON number outside the int64 range makes the
decode fail (the badBody case); every decoded request therefore carries an
in-range score.  Store communication errors (the 500 paths) are not
modelled: every store operation succeeds, and the redis.Nil sentinel for
an absent key is Option.none.  Responses record the status code and the
body shape the code writes: plain text from http.Error or fmt.Fprintln, a
structured JSON message, the JSON users array, or the JSON score object.
-/

/-- An association-list lookup, the model of redis GET and HGET:
the value stored under the key, or none (redis.Nil) when absent. -/
def hget {α : Type} : List (String × α) → String → Option α
  | [], _ => none
  | (k, v) :: rest, key => if k = key then some v else hget rest key

/-- An association-list update, the model of redis SET and HSET:
overwrite the entry for the key if present, otherwise append it. -/
def hset {α : Type} : List (String × α) → String → α → List (String × α)
  | [], key, v => [(key, v)]
  | (k, w) :: rest, key, v =>
      if k = key then (key, v) :: rest else (k, w) :: hset rest key v

/-- Two's-complement wrap into the int64 range: the value congruent to n
modulo 2 to the 64 that lies in the interval from minus 2 to the 63
(inclusive) up to 2 to the 63 (exclusive).  This is what Go int64
arithmetic computes on overflow. -/
def wrap64 (n : Int) : Int := (n + 2 ^ 63) % 2 ^ 64 - 2 ^ 63

/-- The wrapped value lies in the int64 range. -/
def wrap64_mem (n : Int) : -(2 ^ 63) ≤ wrap64 n ∧ wrap64 n < 2 ^ 63 := by
  have h1 : 0 ≤ (n + 2 ^ 63) % 2 ^ 64 := Int.emod_nonneg _ (by norm_num)
  have h2 : (n + 2 ^ 63) % 2 ^ 64 < 2 ^ 64 := Int.emod_lt_of_pos _ (by norm_num)
  have h3 : (2 : Int) ^ 64 = 2 ^ 63 + 2 ^ 63 := by norm_num
  unfold wrap64
  constructor <;> linarith

/-- A Go int (64-bit on the target platform): an integer in the
two's-complement int64 range. -/
abbrev GoInt : Type := {n : Int // -(2 ^ 63) ≤ n ∧ n < 2 ^ 63}

/-- The Go int with the value of n wrapped into range. -/
def goInt (n : Int) : GoInt := ⟨wrap64 n, wrap64_mem n⟩

/-- Go int64 addition: the mathematical sum wrapped modulo 2 to the 64,
as computed by score += user.Score in the source. -/
def GoInt.add (a b : GoInt) : GoInt := goInt (a.val + b.val)

/-- The Go int zero, the value .Int() yields for redis.Nil. -/
def GoInt.zero : GoInt := ⟨0, by norm_num⟩

/-- The state of the Redis store as the handlers use it. -/
structure Store where
  kv : List (String × String)
  users : List (String × String)
  scores : List (String × GoInt)
  deriving DecidableEq

/-- The decoded request body: Go struct User {Email, Password, Score}.
Fields absent from the JSON decode to their zero values; the Score field
is a Go int, so a decoded score is always in the int64 range (a JSON
number outside it fails decoding and never reaches the handler body). -/
structure UserReq where
  email : String
  password : String
  score : GoInt
  deriving DecidableEq

/-- An incoming HTTP request as the handlers see it: an OPTIONS
preflight, a body on which json.Decode fails (malformed JSON, or a score
outside the int64 range), or a decoded body. -/
inductive HttpReq where
  | options
  | badBody
  | body (u : UserReq)
  deriving DecidableEq

/-- The body shapes the handlers write. -/
inductive RespBody where
  | empty
  | text (s : String)
  | jsonMessage (m : String)
  | jsonUsers (l : List (String × String))
  | jsonScore (n : Int)
  deriving DecidableEq

/-- An HTTP response: status code and body. -/
structure HttpResp where
  status : Nat
  body : RespBody
  deriving DecidableEq

/-- SignupHandler (main.go).  Decodes the body, checks existence with a
top-level GET on the email (redis.Nil yields the empty string, which the
code treats as absence), rejects with 400 if the value is non-empty, and
otherwise stores the password with HSET "users" email password, answering
201. -/
def SignupHandler (s : Store) (r : HttpReq) : HttpResp × Store :=
  match r with
  | .options => (⟨200, .empty⟩, s)
  | .badBody => (⟨400, .text "Invalid request body"⟩, s)
  | .body u =>
      let val := (hget s.kv u.email).getD ""
      if val ≠ "" then
        (⟨400, .jsonMessage "User already exists"⟩, s)
      else
        (⟨201, .text "User signed up successfully"⟩,
          { s with users := hset s.users u.email u.password })

/-- GetAllUsersHandler (main.go).  HGETALL "users", answered as a JSON
array of {email, password} objects.  The handler reads no request body. -/
def GetAllUsersHandler (s : Store) : HttpResp × Store :=
  (⟨200, .jsonUsers s.users⟩, s)

/-- LoginHandler (main.go).  Decodes the body, does a top-level GET on the
email: redis.Nil answers 404, a mismatched password answers 401, a match
answers 200. -/
def LoginHandler (s : Store) (r : HttpReq) : HttpResp × Store :=
  match r with
  | .options => (⟨200, .empty⟩, s)
  | .badBody => (⟨400, .text "Invalid request body"⟩, s)
  | .body u =>
      match hget s.kv u.email with
      | none => (⟨404, .text "User not found"⟩, s)
      | some password =>
          if u.password ≠ password then
            (⟨401, .jsonMessage "Incorrect password"⟩, s)
          else
            (⟨200, .jsonMessage "Login successful"⟩, s)

/-- UpdateScoreHandler (main.go).  Decodes the body, reads HGET "users"
email (redis.Nil yields the empty string): an empty value answers 404.
Otherwise reads HGET "scores" email as a Go int (redis.Nil yields 0),
adds the request score as a delta with Go int64 wrapping addition, writes
the sum back with HSET "scores", and answers 200. -/
def UpdateScoreHandler (s : Store) (r : HttpReq) : HttpResp × Store :=
  match r with
  | .options => (⟨200, .empty⟩, s)
  | .badBody => (⟨400, .text "Invalid request body"⟩, s)
  | .body u =>
      let val := (hget s.users u.email).getD ""
      if val = "" then
        (⟨404, .jsonMessage "User not found"⟩, s)
      else
        let score := (hget s.scores u.email).getD GoInt.zero
        (⟨200, .text "User score updated successfully"⟩,
          { s with scores := hset s.scores u.email (GoInt.add score u.score) })

/-- GetHighestScoreHandler (main.go).  Decodes the body and reads
HGET "scores" email as a Go int, 0 when absent (redis.Nil); answers 200
with the JSON object containing the score.  No existence check is made
against the users hash. -/
def GetHighestScoreHandler (s : Store) (r : HttpReq) : HttpResp × Store :=
  match r with
  | .options => (⟨200, .empty⟩, s)
  | .badBody => (⟨400, .text "Invalid request body"⟩, s)
  | .body u =>
      (⟨200, .jsonScore ((hget s.scores u.email).getD GoInt.zero).val⟩, s)

theorem hget_hset_self {α : Type} (l : List (String × α)) (k : String) (v : α) :
    hget (hset l k v) k = some v := by
  induction l with
  | nil => simp [hget, hset]
  | cons p rest ih =>
      obtain ⟨k', w⟩ := p
      by_cases h : k' = k
      · simp [hget, hset, h]
      · simp [hget, hset, h, ih]

theorem wrap64_eq_of_mem (n : Int) (h1 : -(2 ^ 63) ≤ n) (h2 : n < 2 ^ 63) :
    wrap64 n = n := by
  have h3 : (2 : Int) ^ 64 = 2 ^ 63 + 2 ^ 63 := by norm_num
  have h4 : (n + 2 ^ 63) % 2 ^ 64 = n + 2 ^ 63 :=
    Int.emod_eq_of_lt (by linarith) (by linarith)
  unfold wrap64
  rw [h4]
  ring

/-- Claim C1: the claim states that after a successful signup (201), a
second signup for the same email answers 400 "User already exists" without
writing.  The code refutes it: on the empty store the first signup answers
201 and stores the password in the users hash, yet the second signup for
the same email also answers 201 and overwrites the stored password,
because the existence check reads the top-level keyspace (GET email) while
signup writes the users hash (HSET), so the check never sees a prior
signup. -/
theorem signup_duplicate_accepted_bug :
    (SignupHandler ⟨[], [], []⟩ (.body ⟨"a@b.com", "pw", goInt 0⟩)).1.status = 201 ∧
    hget (SignupHandler ⟨[], [], []⟩ (.body ⟨"a@b.com", "pw", goInt 0⟩)).2.users "a@b.com"
      = some "pw" ∧
    (SignupHandler (SignupHandler ⟨[], [], []⟩ (.body ⟨"a@b.com", "pw", goInt 0⟩)).2
        (.body ⟨"a@b.com", "pw2", goInt 0⟩)).1.status = 201 ∧
    hget (SignupHandler (SignupHandler ⟨[], [], []⟩ (.body ⟨"a@b.com", "pw", goInt 0⟩)).2
        (.body ⟨"a@b.com", "pw2", goInt 0⟩)).2.users "a@b.com" = some "pw2" := by
  decide

/-- Claim C2: the claim states that after a successful signup, a login
with the same email and password answers 200.  The code refutes it: after
the signup answers 201 (writing HSET users email password), a login with
the very same credentials answers 404 "User not found", because the login
looks the email up in the top-level keyspace (GET email) where signup
never writes. -/
theorem login_after_signup_404_bug :
    (SignupHandler ⟨[], [], []⟩ (.body ⟨"a@b.com", "pw", goInt 0⟩)).1.status = 201 ∧
    (LoginHandler (SignupHandler ⟨[], [], []⟩ (.body ⟨"a@b.com", "pw", goInt 0⟩)).2
        (.body ⟨"a@b.com", "pw", goInt 0⟩)).1 = ⟨404, .text "User not found"⟩ := by
  decide

/-- Claim C3, counterexample, in two parts.  First, the claim quantifies
over every email present in the user collection, but an email stored with
the empty-string password is present and yet the first UpdateScore call
answers 404, not 200.  Second, the general clause that the stored score
always equals the previous score plus the delta fails on int64 overflow:
starting from a fresh user, a call with delta 2 to the 63 minus 1 and then
a call with delta 1 both answer 200, but the stored score is then minus
2 to the 63 (the wrapped sum) and GetScore reports that negative value,
not the mathematical sum. -/
theorem updateScore_present_user_rejected_cex :
    hget ((⟨[], [("a@b.com", "")], []⟩ : Store)).users "a@b.com" = some "" ∧
    hget ((⟨[], [("a@b.com", "")], []⟩ : Store)).scores "a@b.com" = none ∧
    (UpdateScoreHandler ⟨[], [("a@b.com", "")], []⟩
        (.body ⟨"a@b.com", "", goInt 5⟩)).1.status = 404 ∧
    (UpdateScoreHandler ⟨[], [("a", "pw")], []⟩
        (.body ⟨"a", "", goInt (2 ^ 63 - 1)⟩)).1.status = 200 ∧
    (UpdateScoreHandler (UpdateScoreHandler ⟨[], [("a", "pw")], []⟩
        (.body ⟨"a", "", goInt (2 ^ 63 - 1)⟩)).2
        (.body ⟨"a", "", goInt 1⟩)).1.status = 200 ∧
    (hget (UpdateScoreHandler (UpdateScoreHandler ⟨[], [("a", "pw")], []⟩
        (.body ⟨"a", "", goInt (2 ^ 63 - 1)⟩)).2
        (.body ⟨"a", "", goInt 1⟩)).2.scores "a").map Subtype.val
      = some (-(2 ^ 63)) ∧
    (GetHighestScoreHandler (UpdateScoreHandler (UpdateScoreHandler
        ⟨[], [("a", "pw")], []⟩ (.body ⟨"a", "", goInt (2 ^ 63 - 1)⟩)).2
        (.body ⟨"a", "", goInt 1⟩)).2 (.body ⟨"a", "", goInt 0⟩)).1
      = ⟨200, .jsonScore (-(2 ^ 63))⟩ ∧
    ((2 ^ 63 - 1 : Int) + 1 ≠ -(2 ^ 63)) := by
  decide

/-- Claim C3, amended: for every email whose entry in the user collection
is a non-empty password, an UpdateScore call with an in-range delta
answers 200 and the stored score becomes the Go int64 wrapping sum of the
previous score (0 if absent) and the request delta; a GetScore on the
resulting store reports exactly that stored value, and whenever the
mathematical sum fits in the int64 range the wrapped sum equals it, so
two calls with deltas 5 and 3 on a fresh user yield GetScore 8. -/
theorem updateScore_accumulates (s : Store) (e p rp : String) (d : GoInt)
    (hp : hget s.users e = some p) (hne : p ≠ "") :
    (UpdateScoreHandler s (.body ⟨e, rp, d⟩)).1.status = 200 ∧
    hget (UpdateScoreHandler s (.body ⟨e, rp, d⟩)).2.scores e
      = some (GoInt.add ((hget s.scores e).getD GoInt.zero) d) ∧
    (GetHighestScoreHandler (UpdateScoreHandler s (.body ⟨e, rp, d⟩)).2
        (.body ⟨e, rp, d⟩)).1
      = ⟨200, .jsonScore (GoInt.add ((hget s.scores e).getD GoInt.zero) d).val⟩ ∧
    (-(2 ^ 63) ≤ ((hget s.scores e).getD GoInt.zero).val + d.val →
      ((hget s.scores e).getD GoInt.zero).val + d.val < 2 ^ 63 →
      (GoInt.add ((hget s.scores e).getD GoInt.zero) d).val
        = ((hget s.scores e).getD GoInt.zero).val + d.val) := by
  refine ⟨?_, ?_, ?_, fun h1 h2 => ?_⟩
  · simp [UpdateScoreHandler, hp, hne]
  · simp [UpdateScoreHandler, hp, hne, hget_hset_self]
  · simp [UpdateScoreHandler, GetHighestScoreHandler, hp, hne, hget_hset_self]
  · exact wrap64_eq_of_mem _ h1 h2

/-- Claim C3, witness: on a store holding the user "a" with password "pw"
and no score entry, the calls with deltas 5 and then 3 each answer 200 and
GetScore then reports 8. -/
theorem updateScore_accumulates_witness :
    (UpdateScoreHandler ⟨[], [("a", "pw")], []⟩
        (.body ⟨"a", "", goInt 5⟩)).1.status = 200 ∧
    (UpdateScoreHandler (UpdateScoreHandler ⟨[], [("a", "pw")], []⟩
        (.body ⟨"a", "", goInt 5⟩)).2 (.body ⟨"a", "", goInt 3⟩)).1.status = 200 ∧
    (GetHighestScoreHandler (UpdateScoreHandler (UpdateScoreHandler
        ⟨[], [("a", "pw")], []⟩ (.body ⟨"a", "", goInt 5⟩)).2
        (.body ⟨"a", "", goInt 3⟩)).2
        (.body ⟨"a", "", goInt 3⟩)).1 = ⟨200, .jsonScore 8⟩ := by
  have h1 := updateScore_accumulates ⟨[], [("a", "pw")], []⟩ "a" "pw" "" (goInt 5)
    (by decide) (by decide)
  have h2 := updateScore_accumulates
    (UpdateScoreHandler ⟨[], [("a", "pw")], []⟩ (.body ⟨"a", "", goInt 5⟩)).2
    "a" "pw" "" (goInt 3) (by decide) (by decide)
  exact ⟨h1.1, h2.1, h2.2.2.1.trans (by decide)⟩

/-- Claim C4: an UpdateScore request whose email is absent from the users
hash answers 404 with the structured message "User not found" and leaves
the store (in particular the scores hash) unchanged. -/
theorem updateScore_unknown_user (s : Store) (u : UserReq)
    (h : hget s.users u.email = none) :
    (UpdateScoreHandler s (.body u)).1 = ⟨404, .jsonMessage "User not found"⟩ ∧
    (UpdateScoreHandler s (.body u)).2 = s := by
  simp [UpdateScoreHandler, h]

/-- Claim C4, witness: on the empty store the update for "a" answers 404
and writes nothing. -/
theorem updateScore_unknown_user_witness :
    (UpdateScoreHandler ⟨[], [], []⟩ (.body ⟨"a", "", goInt 5⟩)).1
      = ⟨404, .jsonMessage "User not found"⟩ ∧
    (UpdateScoreHandler ⟨[], [], []⟩ (.body ⟨"a", "", goInt 5⟩)).2 = ⟨[], [], []⟩ :=
  updateScore_unknown_user ⟨[], [], []⟩ ⟨"a", "", goInt 5⟩ (by decide)

/-- Claim C5: a GetScore request whose email has no entry in the scores
hash answers 200 with the JSON body reporting score 0, never an error
status. -/
theorem getScore_missing_returns_zero (s : Store) (u : UserReq)
    (h : hget s.scores u.email = none) :
    (GetHighestScoreHandler s (.body u)).1 = ⟨200, .jsonScore 0⟩ := by
  simp [GetHighestScoreHandler, h, GoInt.zero]

/-- Claim C5, witness: on the empty store GetScore for "a" answers 200
with score 0. -/
theorem getScore_missing_returns_zero_witness :
    (GetHighestScoreHandler ⟨[], [], []⟩ (.body ⟨"a", "", goInt 0⟩)).1
      = ⟨200, .jsonScore 0⟩ :=
  getScore_missing_returns_zero ⟨[], [], []⟩ ⟨"a", "", goInt 0⟩ (by decide)

/-- Claim C6: the outcome of a well-formed login is the trichotomy over
the store entry the handler consults (the top-level string keyspace at the
email): absent gives 404 "User not found", present but different from the
request password gives 401 with the structured message "Incorrect
password", and present and equal gives 200 with "Login successful". -/
theorem login_outcome_trichotomy (s : Store) (u : UserReq) :
    (hget s.kv u.email = none →
      (LoginHandler s (.body u)).1 = ⟨404, .text "User not found"⟩) ∧
    (∀ p, hget s.kv u.email = some p → u.password ≠ p →
      (LoginHandler s (.body u)).1 = ⟨401, .jsonMessage "Incorrect password"⟩) ∧
    (hget s.kv u.email = some u.password →
      (LoginHandler s (.body u)).1 = ⟨200, .jsonMessage "Login successful"⟩) := by
  refine ⟨fun h => ?_, fun p hp hne => ?_, fun h => ?_⟩
  · simp [LoginHandler, h]
  · simp [LoginHandler, hp, hne]
  · simp [LoginHandler, h]

/-- Claim C6, witness: the three cases at concrete stores — no entry for
"a", an entry "q" differing from the request password "p", and an entry
equal to it. -/
theorem login_outcome_trichotomy_witness :
    (LoginHandler ⟨[], [], []⟩ (.body ⟨"a", "p", goInt 0⟩)).1
      = ⟨404, .text "User not found"⟩ ∧
    (LoginHandler ⟨[("a", "q")], [], []⟩ (.body ⟨"a", "p", goInt 0⟩)).1
      = ⟨401, .jsonMessage "Incorrect password"⟩ ∧
    (LoginHandler ⟨[("a", "p")], [], []⟩ (.body ⟨"a", "p", goInt 0⟩)).1
      = ⟨200, .jsonMessage "Login successful"⟩ :=
  ⟨(login_outcome_trichotomy ⟨[], [], []⟩ ⟨"a", "p", goInt 0⟩).1 (by decide),
   (login_outcome_trichotomy ⟨[("a", "q")], [], []⟩ ⟨"a", "p", goInt 0⟩).2.1 "q"
     (by decide) (by decide),
   (login_outcome_trichotomy ⟨[("a", "p")], [], []⟩ ⟨"a", "p", goInt 0⟩).2.2
     (by decide)⟩

/-- Claim C7: ListUsers answers 200 with exactly the entries of the users
hash as {email, password} pairs, passwords unredacted, and touches
nothing; moreover a signup that answers 201 leaves its email mapped to its
password in that hash, and a signup rejected with 400 leaves the whole
store unchanged. -/
theorem listUsers_reflects_store (s : Store) (u : UserReq) :
    (GetAllUsersHandler s).1 = ⟨200, .jsonUsers s.users⟩ ∧
    (GetAllUsersHandler s).2 = s ∧
    ((SignupHandler s (.body u)).1.status = 201 →
      hget (SignupHandler s (.body u)).2.users u.email = some u.password) ∧
    ((SignupHandler s (.body u)).1.status = 400 →
      (SignupHandler s (.body u)).2 = s) := by
  refine ⟨rfl, rfl, fun h => ?_, fun h => ?_⟩
  · by_cases hv : (hget s.kv u.email).getD "" = ""
    · simp [SignupHandler, hv, hget_hset_self]
    · simp [SignupHandler, hv] at h
  · by_cases hv : (hget s.kv u.email).getD "" = ""
    · simp [SignupHandler, hv] at h
    · simp [SignupHandler, hv]

/-- Claim C7, witness: a successful signup of "a" on the empty store shows
up in the users hash; a signup rejected at a store holding a top-level
entry for "a" changes nothing. -/
theorem listUsers_reflects_store_witness :
    hget (SignupHandler ⟨[], [], []⟩ (.body ⟨"a", "p", goInt 0⟩)).2.users "a"
      = some "p" ∧
    (SignupHandler ⟨[("a", "x")], [], []⟩ (.body ⟨"a", "p", goInt 0⟩)).2
      = ⟨[("a", "x")], [], []⟩ :=
  ⟨(listUsers_reflects_store ⟨[], [], []⟩ ⟨"a", "p", goInt 0⟩).2.2.1 (by decide),
   (listUsers_reflects_store ⟨[("a", "x")], [], []⟩ ⟨"a", "p", goInt 0⟩).2.2.2
     (by decide)⟩

/-- Claim C8: when the body fails JSON decoding, Signup, Login,
UpdateScore and GetScore each answer 400 and perform no store operation,
leaving the store unchanged. -/
theorem decode_failure_400_no_write (s : Store) :
    SignupHandler s .badBody = (⟨400, .text "Invalid request body"⟩, s) ∧
    LoginHandler s .badBody = (⟨400, .text "Invalid request body"⟩, s) ∧
    UpdateScoreHandler s .badBody = (⟨400, .text "Invalid request body"⟩, s) ∧
    GetHighestScoreHandler s .badBody = (⟨400, .text "Invalid request body"⟩, s) :=
  ⟨rfl, rfl, rfl, rfl⟩

/-- Claim C9: an email whose entry in the users hash is the empty string
is present in the user collection, yet UpdateScore answers 404 "User not
found" for it and leaves the store unchanged: the code conflates an empty
stored password with absence. -/
theorem updateScore_empty_password_conflation (s : Store) (u : UserReq)
    (h : hget s.users u.email = some "") :
    (UpdateScoreHandler s (.body u)).1 = ⟨404, .jsonMessage "User not found"⟩ ∧
    (UpdateScoreHandler s (.body u)).2 = s := by
  simp [UpdateScoreHandler, h]

/-- Claim C9, witness: with "a" mapped to the empty password and an
existing score of 7, the update answers 404 and the score stays 7. -/
theorem updateScore_empty_password_conflation_witness :
    (UpdateScoreHandler ⟨[], [("a", "")], [("a", goInt 7)]⟩
        (.body ⟨"a", "", goInt 5⟩)).1
      = ⟨404, .jsonMessage "User not found"⟩ ∧
    (UpdateScoreHandler ⟨[], [("a", "")], [("a", goInt 7)]⟩
        (.body ⟨"a", "", goInt 5⟩)).2
      = ⟨[], [("a", "")], [("a", goInt 7)]⟩ :=
  updateScore_empty_password_conflation ⟨[], [("a", "")], [("a", goInt 7)]⟩
    ⟨"a", "", goInt 5⟩ (by decide)

/-- Claim C10: Login, ListUsers and GetScore leave the store unchanged on
every request, well-formed or not, and UpdateScore never modifies the
users hash (nor the top-level keyspace). -/
theorem read_only_handlers (s : Store) (r : HttpReq) :
    (LoginHandler s r).2 = s ∧
    (GetAllUsersHandler s).2 = s ∧
    (GetHighestScoreHandler s r).2 = s ∧
    (UpdateScoreHandler s r).2.users = s.users ∧
    (UpdateScoreHandler s r).2.kv = s.kv := by
  cases r with
  | options => exact ⟨rfl, rfl, rfl, rfl, rfl⟩
  | badBody => exact ⟨rfl, rfl, rfl, rfl, rfl⟩
  | body u =>
      refine ⟨?_, rfl, rfl, ?_, ?_⟩
      · cases hp : hget s.kv u.email with
        | none => simp [LoginHandler, hp]
        | some p =>
            by_cases hq : u.password = p <;> simp [LoginHandler, hp, hq]
      · by_cases hv : (hget s.users u.email).getD "" = "" <;>
          simp [UpdateScoreHandler, hv]
      · by_cases hv : (hget s.users u.email).getD "" = "" <;>
          simp [UpdateScoreHandler, hv]
